import Mathlib

/-!
Verification development for the sysmaster service manager.

This file gives a shallow embedding of the parts of the repository that the
claims talk about:

* the per-service supervision state machine of
  components/service/src/service.rs (ServiceUnit with its start / stop /
  sigchld handling, kill discipline and result latching);
* KillOperation::to_signal from process1/src/manager/unit/unit_base/ub_basic.rs;
* the Ord / PartialEq / Hash instances of dyn Source from
  libs/event/src/source.rs;
* Commands::dispatch from sysmaster/core/manager/commands.rs.

External effects (process spawning, the kill(2) syscall, set_state
notifications, the reliability journal) are modelled by oracles and by ghost
event traces threaded through the state: `spawned` records every
start_service attempt, `kills` records every kill(2) issued, `states_log`
records every set_state call, in program order.
-/

namespace Sysmaster

/-- Signals used by the embedded code.  `SigOther n` stands for any other
signal number, so theorems can quantify over arbitrary term signals. -/
inductive Signal where
  | SIGTERM
  | SIGKILL
  | SIGCONT
  | SIGABRT
  | SIGCHLD
  | SigOther (n : Nat)
deriving DecidableEq, Repr

/-- KillOperation from ub_basic.rs. -/
inductive KillOperation where
  | KillTerminate
  | KillTerminateAndLog
  | KillRestart
  | KillKill
  | KillWatchdog
  | KillInvalid
deriving DecidableEq, Repr

/-- KillOperation::to_signal from ub_basic.rs: Terminate, TerminateAndLog and
Restart map to SIGTERM, Kill to SIGKILL, Watchdog to SIGABRT, everything
else to SIGTERM. -/
def KillOperation.to_signal : KillOperation → Signal
  | .KillTerminate | .KillTerminateAndLog | .KillRestart => .SIGTERM
  | .KillKill => .SIGKILL
  | .KillWatchdog => .SIGABRT
  | _ => .SIGTERM

/-- Modelled from the spec: the ServiceState enum lives in service_base.rs,
which is not under src/.  Its variants are pinned by their uses in
service.rs plus the state list of the spec. -/
inductive ServiceState where
  | ServiceStateMax
  | ServiceDead
  | ServiceCondition
  | ServiceStartPre
  | ServiceStart
  | ServiceStartPost
  | ServiceRuning
  | ServiceExited
  | ServiceReload
  | ServiceStop
  | ServiceStopWatchdog
  | ServiceStopSigterm
  | ServiceStopSigkill
  | ServiceStopPost
  | ServiceFinalWatchdog
  | ServiceFinalSigterm
  | ServiceFinalSigkill
  | ServiceAutoRestart
  | ServiceCleaning
  | ServiceFailed
deriving DecidableEq, Repr

/-- Modelled from the spec: the ServiceResult enum lives in service_base.rs,
which is not under src/; the spec lists these six values. -/
inductive ServiceResult where
  | ServiceSuccess
  | ServiceFailureResources
  | ServiceFailureTimeout
  | ServiceFailureSignal
  | ServiceFailureExitCode
  | ServiceFailureWatchdog
deriving DecidableEq, Repr

/-- Modelled from the spec: the ServiceCommand stage enum lives in
service_base.rs, which is not under src/; the seven stages are pinned by
their uses in service.rs. -/
inductive ServiceCommand where
  | ServiceCondition
  | ServiceStartPre
  | ServiceStart
  | ServiceStartPost
  | ServiceReload
  | ServiceStop
  | ServiceStopPost
deriving DecidableEq, Repr

/-- Modelled from the spec: CommandLine lives in service_base.rs, which is
not under src/.  It is argv plus a linked-list `next` pointer. -/
inductive CommandLine where
  | mk (argv : List String) (next : Option CommandLine)

/-- The `next` pointer of a CommandLine node. -/
def CommandLine.next : CommandLine → Option CommandLine
  | .mk _ n => n

/-- Modelled from the spec: ServiceState::to_kill_operation lives in
service_base.rs, which is not under src/.  Per the signal progression of the
spec, sigterm states use SIGTERM, sigkill states SIGKILL, watchdog states
SIGABRT. -/
def ServiceState.to_kill_operation : ServiceState → KillOperation
  | .ServiceStopSigterm | .ServiceFinalSigterm => .KillTerminate
  | .ServiceStopSigkill | .ServiceFinalSigkill => .KillKill
  | .ServiceStopWatchdog | .ServiceFinalWatchdog => .KillWatchdog
  | _ => .KillInvalid

/-- The environment of a ServiceUnit: `spawn` is the outcome of
service_start::start_service for a given command (none = spawn error), and
`kill_ok` is the outcome of the nix::sys::signal::kill syscall. -/
structure Ctx where
  spawn : CommandLine → Option Int
  kill_ok : Int → Signal → Bool

/-- The fields of ServiceUnit from service.rs that the embedded operations
touch, plus ghost event traces (spawned, kills, states_log) recording the
external effects in program order.  exec_commands keeps only the head
structure actually consumed by the code (cmds.iter().next()). -/
structure ServiceUnit where
  state : ServiceState
  result : ServiceResult
  main_command : Option CommandLine
  control_command : Option CommandLine
  main_pid : Option Int
  control_pid : Option Int
  forbid_restart : Bool
  exec_commands : ServiceCommand → List CommandLine
  spawned : List CommandLine
  kills : List (Int × Signal)
  states_log : List ServiceState

namespace ServiceUnit

/-- set_state: records the transition; the notify call to the owning Unit is
external and not modelled. -/
def set_state (st : ServiceState) (s : ServiceUnit) : ServiceUnit :=
  { s with state := st, states_log := s.states_log ++ [st] }

/-- service_start::start_service: asks the spawner oracle and records the
attempt in the ghost trace. -/
def start_service (env : Ctx) (cmd : CommandLine) (s : ServiceUnit) :
    Option Int × ServiceUnit :=
  (env.spawn cmd, { s with spawned := s.spawned ++ [cmd] })

/-- service_alive from service.rs: the source body is a todo comment that
returns true. -/
def service_alive (_ : ServiceUnit) : Bool := true

/-- run_dead from service.rs: latch the result if still success, then move to
Dead or Failed depending on the (possibly just latched) result. -/
def run_dead (res : ServiceResult) (s : ServiceUnit) : ServiceUnit :=
  let s := if s.result = ServiceResult.ServiceSuccess then { s with result := res } else s
  set_state
    (if s.result = ServiceResult.ServiceSuccess then ServiceState.ServiceDead
     else ServiceState.ServiceFailed) s

/-- kill_service from service.rs: send the signal of the operation to the
main pid when present and to the control pid when present; after a
successful kill of a signal that is neither SIGCONT nor SIGKILL, also send
SIGCONT.  Every issued kill(2) is recorded in the ghost trace. -/
def kill_service (env : Ctx) (op : KillOperation) (s : ServiceUnit) : ServiceUnit :=
  let sig := op.to_signal
  let s1 :=
    match s.main_pid with
    | some p =>
      if env.kill_ok p sig then
        if sig ≠ Signal.SIGCONT ∧ sig ≠ Signal.SIGKILL then
          { s with kills := s.kills ++ [(p, sig), (p, Signal.SIGCONT)] }
        else { s with kills := s.kills ++ [(p, sig)] }
      else { s with kills := s.kills ++ [(p, sig)] }
    | none => s
  match s1.control_pid with
  | some p =>
    if env.kill_ok p sig then
      if sig ≠ Signal.SIGCONT ∧ sig ≠ Signal.SIGKILL then
        { s1 with kills := s1.kills ++ [(p, sig), (p, Signal.SIGCONT)] }
      else { s1 with kills := s1.kills ++ [(p, sig)] }
    else { s1 with kills := s1.kills ++ [(p, sig)] }
  | none => s1

/-- send_signal specialised to ServiceFinalSigkill: kill, then (FinalSigkill
being in neither state list of send_signal) run_dead with success. -/
def send_signal_final_kill (env : Ctx) (s : ServiceUnit) : ServiceUnit :=
  run_dead ServiceResult.ServiceSuccess
    (kill_service env ServiceState.ServiceFinalSigkill.to_kill_operation s)

/-- send_signal specialised to ServiceFinalSigterm: kill, then (FinalSigterm
being in the second state list of send_signal) recurse with FinalSigkill and
success. -/
def send_signal_final_term (env : Ctx) (_res : ServiceResult) (s : ServiceUnit) : ServiceUnit :=
  send_signal_final_kill env
    (kill_service env ServiceState.ServiceFinalSigterm.to_kill_operation s)

/-- run_stop_post from service.rs: latch the result if still success; spawn
the first post-stop command as control and set state StopPost (on a spawn
error first recursing into send_signal FinalSigterm with failure-resources,
the trailing set_state StopPost still running afterwards, as in the source);
with an empty list go straight to send_signal FinalSigterm with success. -/
def run_stop_post (env : Ctx) (res : ServiceResult) (s : ServiceUnit) : ServiceUnit :=
  let s := if s.result = ServiceResult.ServiceSuccess then { s with result := res } else s
  match (s.exec_commands ServiceCommand.ServiceStopPost).head? with
  | some cmd =>
    let s1 := { s with control_command := some cmd }
    let s2 := (start_service env cmd s1).2
    match (start_service env cmd s1).1 with
    | some pid => set_state ServiceState.ServiceStopPost { s2 with control_pid := some pid }
    | none =>
      set_state ServiceState.ServiceStopPost
        (send_signal_final_term env ServiceResult.ServiceFailureResources s2)
  | none => send_signal_final_term env ServiceResult.ServiceSuccess s

/-- send_signal from service.rs: kill with the operation of the state, then
for StopWatchdog / StopSigterm / StopSigkill run post-stop with success, for
FinalWatchdog / FinalSigterm recurse with FinalSigkill, otherwise run_dead
with success.  The res argument is only logged by the source. -/
def send_signal (env : Ctx) (st : ServiceState) (_res : ServiceResult) (s : ServiceUnit) :
    ServiceUnit :=
  let s1 := kill_service env st.to_kill_operation s
  if st = ServiceState.ServiceStopWatchdog ∨ st = ServiceState.ServiceStopSigterm ∨
      st = ServiceState.ServiceStopSigkill then
    run_stop_post env ServiceResult.ServiceSuccess s1
  else if st = ServiceState.ServiceFinalWatchdog ∨ st = ServiceState.ServiceFinalSigterm then
    send_signal_final_kill env s1
  else
    run_dead ServiceResult.ServiceSuccess s1

/-- run_stop from service.rs: latch the result if still success; spawn the
first stop command as control and set state Stop (a spawn error only logs);
with an empty list go to send_signal StopSigterm with success. -/
def run_stop (env : Ctx) (res : ServiceResult) (s : ServiceUnit) : ServiceUnit :=
  let s := if s.result = ServiceResult.ServiceSuccess then { s with result := res } else s
  match (s.exec_commands ServiceCommand.ServiceStop).head? with
  | some cmd =>
    let s1 := { s with control_command := some cmd }
    let s2 := (start_service env cmd s1).2
    match (start_service env cmd s1).1 with
    | some pid => set_state ServiceState.ServiceStop { s2 with control_pid := some pid }
    | none => set_state ServiceState.ServiceStop s2
  | none => send_signal env ServiceState.ServiceStopSigterm ServiceResult.ServiceSuccess s

/-- enter_running from service.rs: latch sr if the result is still success;
then with a non-success result send_signal StopSigterm, with a success
result either state Runing (service alive) or run_stop. -/
def enter_running (env : Ctx) (sr : ServiceResult) (s : ServiceUnit) : ServiceUnit :=
  let s := if s.result = ServiceResult.ServiceSuccess then { s with result := sr } else s
  if s.result ≠ ServiceResult.ServiceSuccess then
    send_signal env ServiceState.ServiceStopSigterm sr s
  else if service_alive s then set_state ServiceState.ServiceRuning s
  else run_stop env sr s

/-- run_start_post from service.rs: spawn the first post-start command as
control and set state StartPost (a spawn error only logs); with an empty
list call enter_running with success. -/
def run_start_post (env : Ctx) (s : ServiceUnit) : ServiceUnit :=
  match (s.exec_commands ServiceCommand.ServiceStartPost).head? with
  | some cmd =>
    let s1 := { s with control_command := some cmd }
    let s2 := (start_service env cmd s1).2
    match (start_service env cmd s1).1 with
    | some pid => set_state ServiceState.ServiceStartPost { s2 with control_pid := some pid }
    | none => set_state ServiceState.ServiceStartPost s2
  | none => enter_running env ServiceResult.ServiceSuccess s

/-- run_start from service.rs: clear the control cursor, spawn the first
start command as the main pid and set state Start (on a spawn error calling
send_signal StopSigterm failure-resources, the trailing set_state Start
still running afterwards, as in the source); with an empty list run
post-start. -/
def run_start (env : Ctx) (s : ServiceUnit) : ServiceUnit :=
  let s := { s with control_command := none }
  match (s.exec_commands ServiceCommand.ServiceStart).head? with
  | some cmd =>
    let s1 := { s with main_command := some cmd }
    let s2 := (start_service env cmd s1).2
    match (start_service env cmd s1).1 with
    | some pid => set_state ServiceState.ServiceStart { s2 with main_pid := some pid }
    | none =>
      set_state ServiceState.ServiceStart
        (send_signal env ServiceState.ServiceStopSigterm
          ServiceResult.ServiceFailureResources s2)
  | none => run_start_post env s

/-- run_prestart from service.rs: spawn the first pre-start command as
control and set state StartPre (on a spawn error calling run_dead with
failure-resources before the trailing set_state StartPre, as in the source);
with an empty list run start. -/
def run_prestart (env : Ctx) (s : ServiceUnit) : ServiceUnit :=
  match (s.exec_commands ServiceCommand.ServiceStartPre).head? with
  | some cmd =>
    let s1 := { s with control_command := some cmd }
    let s2 := (start_service env cmd s1).2
    match (start_service env cmd s1).1 with
    | some pid => set_state ServiceState.ServiceStartPre { s2 with control_pid := some pid }
    | none =>
      set_state ServiceState.ServiceStartPre
        (run_dead ServiceResult.ServiceFailureResources s2)
  | none => run_start env s

/-- start from service.rs: spawn the first condition command as control and
set state Condition (on a spawn error calling run_dead with
failure-resources before the trailing set_state Condition, as in the
source); with an empty condition list run pre-start. -/
def start (env : Ctx) (s : ServiceUnit) : ServiceUnit :=
  match (s.exec_commands ServiceCommand.ServiceCondition).head? with
  | some cmd =>
    let s1 := { s with control_command := some cmd }
    let s2 := (start_service env cmd s1).2
    match (start_service env cmd s1).1 with
    | some pid => set_state ServiceState.ServiceCondition { s2 with control_pid := some pid }
    | none =>
      set_state ServiceState.ServiceCondition
        (run_dead ServiceResult.ServiceFailureResources s2)
  | none => run_prestart env s

/-- run_reload from service.rs: clear the control cursor, spawn the first
reload command as control and set state Reload (on a spawn error calling
enter_running with success before the trailing set_state Reload, as in the
source); with an empty list call enter_running with success. -/
def run_reload (env : Ctx) (s : ServiceUnit) : ServiceUnit :=
  let s := { s with control_command := none }
  match (s.exec_commands ServiceCommand.ServiceReload).head? with
  | some cmd =>
    let s1 := { s with control_command := some cmd }
    let s2 := (start_service env cmd s1).2
    match (start_service env cmd s1).1 with
    | some pid => set_state ServiceState.ServiceReload { s2 with control_pid := some pid }
    | none =>
      set_state ServiceState.ServiceReload
        (enter_running env ServiceResult.ServiceSuccess s2)
  | none => enter_running env ServiceResult.ServiceSuccess s

/-- run_next_main from service.rs: advance the main cursor to its `next`
command and spawn it (a spawn error only logs). -/
def run_next_main (env : Ctx) (s : ServiceUnit) : ServiceUnit :=
  match s.main_command with
  | some mc =>
    match mc.next with
    | some cmd =>
      let s1 := { s with main_command := some cmd }
      let s2 := (start_service env cmd s1).2
      match (start_service env cmd s1).1 with
      | some pid => { s2 with main_pid := some pid }
      | none => s2
    | none => s
  | none => s

/-- run_next_control from service.rs: advance the control cursor to its
`next` command and spawn it (a spawn error only logs). -/
def run_next_control (env : Ctx) (s : ServiceUnit) : ServiceUnit :=
  match s.control_command with
  | some cc =>
    match cc.next with
    | some cmd =>
      let s1 := { s with control_command := some cmd }
      let s2 := (start_service env cmd s1).2
      match (start_service env cmd s1).1 with
      | some pid => { s2 with control_pid := some pid }
      | none => s2
    | none => s
  | none => s

/-- UnitObj::stop from service.rs: latch forbid_restart; return unchanged
from a stopping state; from a starting state short-circuit to send_signal
StopSigterm; otherwise run_stop with success. -/
def stop (env : Ctx) (s : ServiceUnit) : ServiceUnit :=
  let s := { s with forbid_restart := true }
  if s.state = ServiceState.ServiceStop ∨ s.state = ServiceState.ServiceStopSigterm ∨
      s.state = ServiceState.ServiceStopSigkill ∨ s.state = ServiceState.ServiceStopPost then
    s
  else if s.state = ServiceState.ServiceCondition ∨ s.state = ServiceState.ServiceStartPre ∨
      s.state = ServiceState.ServiceStart ∨ s.state = ServiceState.ServiceStartPost ∨
      s.state = ServiceState.ServiceReload ∨ s.state = ServiceState.ServiceStopWatchdog then
    send_signal env ServiceState.ServiceStopSigterm ServiceResult.ServiceSuccess s
  else
    run_stop env ServiceResult.ServiceSuccess s

/-- The exit classification computed at the top of sigchld_event in
service.rs. -/
def sigchld_res (code : Int) (status : Signal) : ServiceResult :=
  if code = 0 then ServiceResult.ServiceSuccess
  else if status ≠ Signal.SIGCHLD then ServiceResult.ServiceFailureSignal
  else ServiceResult.ServiceSuccess

/-- Whether an optional cursor has a pending `next` command. -/
def has_next : Option CommandLine → Bool
  | some c => c.next.isSome
  | none => false

/-- sigchld_event from service.rs.  Returns none on the two arms whose source
body is todo (a panic): main exit in state Dead, control exit in state
Runing. -/
def sigchld_event (env : Ctx) (pid : Int) (code : Int) (status : Signal)
    (s : ServiceUnit) : Option ServiceUnit :=
  let res := sigchld_res code status
  if s.main_pid = some pid then
    let s := { s with main_pid := none }
    let s := if s.result = ServiceResult.ServiceSuccess then { s with result := res } else s
    if has_next s.main_command = true ∧ res = ServiceResult.ServiceSuccess then
      some (run_next_main env s)
    else
      let s := { s with main_command := none }
      match s.state with
      | ServiceState.ServiceDead => none
      | ServiceState.ServiceStart =>
        some (send_signal env ServiceState.ServiceStopSigterm res s)
      | ServiceState.ServiceStartPost | ServiceState.ServiceReload =>
        some (run_stop env res s)
      | ServiceState.ServiceRuning => some (enter_running env res s)
      | ServiceState.ServiceStop => some s
      | ServiceState.ServiceStopWatchdog | ServiceState.ServiceStopSigkill
      | ServiceState.ServiceStopSigterm => some (run_stop_post env res s)
      | ServiceState.ServiceFinalSigterm | ServiceState.ServiceFinalSigkill =>
        some (run_dead res s)
      | _ => some s
  else if s.control_pid = some pid then
    let s := { s with control_pid := none }
    if has_next s.control_command = true ∧ res = ServiceResult.ServiceSuccess then
      some (run_next_control env s)
    else
      let s := { s with control_command := none }
      match s.state with
      | ServiceState.ServiceCondition =>
        if res = ServiceResult.ServiceSuccess then some (run_prestart env s)
        else some (send_signal env ServiceState.ServiceStopSigterm res s)
      | ServiceState.ServiceStartPre =>
        if res = ServiceResult.ServiceSuccess then some (run_start env s)
        else some (send_signal env ServiceState.ServiceStopSigterm res s)
      | ServiceState.ServiceStart =>
        if res = ServiceResult.ServiceSuccess then some (run_start_post env s)
        else some s
      | ServiceState.ServiceStartPost =>
        some (enter_running env ServiceResult.ServiceSuccess s)
      | ServiceState.ServiceRuning => none
      | ServiceState.ServiceReload => some (enter_running env res s)
      | ServiceState.ServiceStop =>
        some (send_signal env ServiceState.ServiceStopSigterm res s)
      | ServiceState.ServiceStopSigterm | ServiceState.ServiceStopSigkill
      | ServiceState.ServiceStopWatchdog => some (run_stop_post env res s)
      | ServiceState.ServiceStopPost =>
        some (send_signal env ServiceState.ServiceFinalSigterm res s)
      | ServiceState.ServiceFinalSigterm | ServiceState.ServiceFinalSigkill =>
        some (run_dead res s)
      | _ => some s
  else some s

end ServiceUnit

/-! ## Event sources (libs/event/src/source.rs) -/

/-- The observable data of a dyn Source: its stable token (u64) and its
priority (i8, lower value dispatched earlier). -/
structure Source where
  token : Nat
  priority : Int
deriving DecidableEq, Repr

namespace Source

/-- impl PartialEq for dyn Source: equality is token equality. -/
def eq (a b : Source) : Bool := a.token == b.token

/-- impl Hash for dyn Source: only the token is fed to the hasher, so the
hash value is a function of the token alone. -/
def hash (hasher : Nat → Nat) (a : Source) : Nat := hasher a.token

/-- impl Ord for dyn Source: the priority comparison, reversed (so that the
max-heap pops the numerically smallest priority first). -/
def cmp (a b : Source) : Ordering := (compare a.priority b.priority).swap

/-- Modelled from the spec: the dispatch queue itself (events.rs of
libs/event) is not under src/.  Per the spec, sources are dispatched in
ascending priority order with ties broken by insertion order, i.e. the
dispatch order is a stable ascending sort of the insertion list by
priority.  `insert_src` places a source before the first strictly larger
priority, keeping earlier insertions of equal priority in front. -/
def insert_src (x : Source) : List Source → List Source
  | [] => [x]
  | y :: ys =>
    if x.priority ≤ y.priority then x :: y :: ys else y :: insert_src x ys

/-- Modelled from the spec: the dispatch order of a list of sources given in
insertion order, as a stable insertion sort on priority. -/
def dispatch_order : List Source → List Source
  | [] => []
  | x :: xs => insert_src x (dispatch_order xs)

end Source

/-! ## Commands endpoint (sysmaster/core/manager/commands.rs) -/

/-- Modelled from the spec: the frame ids of the reliability journal
(sysmaster::rel is not under src/); the spec names frames for command
dispatch, unit operations and manager operations. -/
inductive ReliLastFrame where
  | CmdOp
  | UnitOp
  | ManagerOp
deriving DecidableEq, Repr

/-- Modelled from the spec: the reliability journal records the last frame
id and clears it after success. -/
structure Reliability where
  last_frame : Option ReliLastFrame
deriving DecidableEq, Repr

/-- Modelled from the spec: set_last_frame1 records the given frame id in
the journal. -/
def Reliability.set_last_frame1 (f : ReliLastFrame) (r : Reliability) : Reliability :=
  { r with last_frame := some f }

/-- Modelled from the spec: clear_last_frame erases the recorded frame. -/
def Reliability.clear_last_frame (r : Reliability) : Reliability :=
  { r with last_frame := none }

/-- Events of one Commands::dispatch invocation, in program order. -/
inductive DispatchEv where
  | set_frame (f : ReliLastFrame)
  | processed
  | cleared
deriving DecidableEq, Repr

/-- One incoming connection of the Commands listener: whether the accepted
stream is Ok and whether ProstServerStream::process succeeds (either unwrap
failing panics the dispatch). -/
structure CmdStream where
  stream_ok : Bool
  process_ok : Bool
deriving DecidableEq, Repr

/-- The environment of one dispatch call: the next element of
fd.incoming(). -/
structure CmdEnv where
  incoming : Option CmdStream

namespace Commands

/-- Commands::dispatch from commands.rs: record the CmdOp frame, take the
next incoming connection and process it, clear the frame, return 0.  The
return value is none when one of the unwrap calls panics; the event list
records the journal and processing steps in program order. -/
def dispatch (env : CmdEnv) (r : Reliability) :
    Reliability × List DispatchEv × Option Int :=
  let r1 := r.set_last_frame1 ReliLastFrame.CmdOp
  let ev1 := [DispatchEv.set_frame ReliLastFrame.CmdOp]
  match env.incoming with
  | none => (r1.clear_last_frame, ev1 ++ [DispatchEv.cleared], some 0)
  | some st =>
    if st.stream_ok = false then (r1, ev1, none)
    else if st.process_ok = false then (r1, ev1, none)
    else (r1.clear_last_frame, ev1 ++ [DispatchEv.processed, DispatchEv.cleared], some 0)

end Commands
/-! ## Helper lemmas: field preservation through the service operations -/

namespace ServiceUnit

theorem result_set_state (st : ServiceState) (s : ServiceUnit) :
    (set_state st s).result = s.result := rfl

theorem result_start_service (env : Ctx) (cmd : CommandLine) (s : ServiceUnit) :
    ((start_service env cmd s).2).result = s.result := rfl

theorem result_kill_service (env : Ctx) (op : KillOperation) (s : ServiceUnit) :
    (kill_service env op s).result = s.result := by
  simp only [kill_service]
  repeat' split
  all_goals rfl

theorem result_run_dead (res : ServiceResult) (s : ServiceUnit)
    (h : s.result ≠ ServiceResult.ServiceSuccess) :
    (run_dead res s).result = s.result := by
  simp only [run_dead, if_neg h, result_set_state]

theorem result_final_kill (env : Ctx) (s : ServiceUnit)
    (h : s.result ≠ ServiceResult.ServiceSuccess) :
    (send_signal_final_kill env s).result = s.result := by
  have h2 : (kill_service env ServiceState.ServiceFinalSigkill.to_kill_operation s).result ≠
      ServiceResult.ServiceSuccess := by
    rw [result_kill_service]; exact h
  rw [send_signal_final_kill, result_run_dead _ _ h2, result_kill_service]

theorem result_final_term (env : Ctx) (res : ServiceResult) (s : ServiceUnit)
    (h : s.result ≠ ServiceResult.ServiceSuccess) :
    (send_signal_final_term env res s).result = s.result := by
  have h2 : (kill_service env ServiceState.ServiceFinalSigterm.to_kill_operation s).result ≠
      ServiceResult.ServiceSuccess := by
    rw [result_kill_service]; exact h
  rw [send_signal_final_term, result_final_kill _ _ h2, result_kill_service]

theorem result_run_stop_post (env : Ctx) (res : ServiceResult) (s : ServiceUnit)
    (h : s.result ≠ ServiceResult.ServiceSuccess) :
    (run_stop_post env res s).result = s.result := by
  simp only [run_stop_post, if_neg h, start_service]
  split
  · split
    · rfl
    · rw [result_set_state]
      exact result_final_term env _ _ h
  · exact result_final_term env _ _ h

theorem result_send_signal (env : Ctx) (st : ServiceState) (res : ServiceResult)
    (s : ServiceUnit) (h : s.result ≠ ServiceResult.ServiceSuccess) :
    (send_signal env st res s).result = s.result := by
  have hk : (kill_service env st.to_kill_operation s).result ≠
      ServiceResult.ServiceSuccess := by
    rw [result_kill_service]; exact h
  simp only [send_signal]
  split
  · rw [result_run_stop_post _ _ _ hk, result_kill_service]
  · split
    · rw [result_final_kill _ _ hk, result_kill_service]
    · rw [result_run_dead _ _ hk, result_kill_service]

theorem result_run_stop (env : Ctx) (res : ServiceResult) (s : ServiceUnit)
    (h : s.result ≠ ServiceResult.ServiceSuccess) :
    (run_stop env res s).result = s.result := by
  simp only [run_stop, if_neg h, start_service]
  split
  · split <;> rfl
  · exact result_send_signal _ _ _ _ h

theorem result_enter_running (env : Ctx) (sr : ServiceResult) (s : ServiceUnit)
    (h : s.result ≠ ServiceResult.ServiceSuccess) :
    (enter_running env sr s).result = s.result := by
  simp only [enter_running, if_neg h, if_pos h]
  exact result_send_signal _ _ _ _ h

theorem result_run_start_post (env : Ctx) (s : ServiceUnit)
    (h : s.result ≠ ServiceResult.ServiceSuccess) :
    (run_start_post env s).result = s.result := by
  simp only [run_start_post, start_service]
  split
  · split <;> rfl
  · exact result_enter_running _ _ _ h

theorem result_run_start (env : Ctx) (s : ServiceUnit)
    (h : s.result ≠ ServiceResult.ServiceSuccess) :
    (run_start env s).result = s.result := by
  simp only [run_start, start_service]
  split
  · split
    · rfl
    · rw [result_set_state]
      exact result_send_signal env _ _ _ h
  · exact result_run_start_post env _ h

theorem result_run_prestart (env : Ctx) (s : ServiceUnit)
    (h : s.result ≠ ServiceResult.ServiceSuccess) :
    (run_prestart env s).result = s.result := by
  simp only [run_prestart, start_service]
  split
  · split
    · rfl
    · rw [result_set_state]
      exact result_run_dead _ _ h
  · exact result_run_start env _ h

theorem result_run_next_main (env : Ctx) (s : ServiceUnit) :
    (run_next_main env s).result = s.result := by
  simp only [run_next_main, start_service]
  repeat' split
  all_goals rfl

theorem result_run_next_control (env : Ctx) (s : ServiceUnit) :
    (run_next_control env s).result = s.result := by
  simp only [run_next_control, start_service]
  repeat' split
  all_goals rfl

theorem result_sigchld_event (env : Ctx) (pid code : Int) (status : Signal)
    (s : ServiceUnit) (h : s.result ≠ ServiceResult.ServiceSuccess) :
    ∀ s', sigchld_event env pid code status s = some s' → s'.result = s.result := by
  intro s' he
  simp only [sigchld_event, if_neg h] at he
  repeat' split at he
  all_goals first
    | (cases he <;> first
        | rfl
        | exact result_run_next_main env _
        | exact result_run_next_control env _
        | exact result_send_signal env _ _ _ h
        | exact result_run_stop env _ _ h
        | exact result_enter_running env _ _ h
        | exact result_run_stop_post env _ _ h
        | exact result_run_dead _ _ h
        | exact result_run_prestart env _ h
        | exact result_run_start env _ h
        | exact result_run_start_post env _ h)

theorem exec_set_state (st : ServiceState) (s : ServiceUnit) :
    (set_state st s).exec_commands = s.exec_commands := rfl

theorem exec_kill_service (env : Ctx) (op : KillOperation) (s : ServiceUnit) :
    (kill_service env op s).exec_commands = s.exec_commands := by
  simp only [kill_service]
  repeat' split
  all_goals rfl

theorem exec_run_dead (res : ServiceResult) (s : ServiceUnit) :
    (run_dead res s).exec_commands = s.exec_commands := by
  simp only [run_dead]
  split
  all_goals rfl

theorem main_command_set_state (st : ServiceState) (s : ServiceUnit) :
    (set_state st s).main_command = s.main_command := rfl

theorem main_command_kill_service (env : Ctx) (op : KillOperation) (s : ServiceUnit) :
    (kill_service env op s).main_command = s.main_command := by
  simp only [kill_service]
  repeat' split
  all_goals rfl

theorem main_command_run_dead (res : ServiceResult) (s : ServiceUnit) :
    (run_dead res s).main_command = s.main_command := by
  simp only [run_dead]
  split
  all_goals rfl

theorem main_command_final_kill (env : Ctx) (s : ServiceUnit) :
    (send_signal_final_kill env s).main_command = s.main_command := by
  rw [send_signal_final_kill, main_command_run_dead, main_command_kill_service]

theorem main_command_final_term (env : Ctx) (res : ServiceResult) (s : ServiceUnit) :
    (send_signal_final_term env res s).main_command = s.main_command := by
  rw [send_signal_final_term, main_command_final_kill, main_command_kill_service]

theorem main_command_run_stop_post (env : Ctx) (res : ServiceResult) (s : ServiceUnit) :
    (run_stop_post env res s).main_command = s.main_command := by
  simp only [run_stop_post, start_service]
  repeat' split
  all_goals first
    | rfl
    | rw [main_command_set_state, main_command_final_term]
    | rw [main_command_final_term]

theorem main_command_send_signal (env : Ctx) (st : ServiceState) (res : ServiceResult)
    (s : ServiceUnit) : (send_signal env st res s).main_command = s.main_command := by
  simp only [send_signal]
  split
  · rw [main_command_run_stop_post, main_command_kill_service]
  · split
    · rw [main_command_final_kill, main_command_kill_service]
    · rw [main_command_run_dead, main_command_kill_service]

theorem control_command_set_state (st : ServiceState) (s : ServiceUnit) :
    (set_state st s).control_command = s.control_command := rfl

theorem control_command_kill_service (env : Ctx) (op : KillOperation) (s : ServiceUnit) :
    (kill_service env op s).control_command = s.control_command := by
  simp only [kill_service]
  repeat' split
  all_goals rfl

theorem control_command_run_dead (res : ServiceResult) (s : ServiceUnit) :
    (run_dead res s).control_command = s.control_command := by
  simp only [run_dead]
  split
  all_goals rfl

theorem control_command_final_kill (env : Ctx) (s : ServiceUnit) :
    (send_signal_final_kill env s).control_command = s.control_command := by
  rw [send_signal_final_kill, control_command_run_dead, control_command_kill_service]

theorem control_command_final_term (env : Ctx) (res : ServiceResult) (s : ServiceUnit) :
    (send_signal_final_term env res s).control_command = s.control_command := by
  rw [send_signal_final_term, control_command_final_kill, control_command_kill_service]

theorem control_command_run_stop_post (env : Ctx) (res : ServiceResult) (s : ServiceUnit) :
    (run_stop_post env res s).control_command = s.control_command ∨
      (run_stop_post env res s).control_command =
        (s.exec_commands ServiceCommand.ServiceStopPost).head? := by
  by_cases hres : s.result = ServiceResult.ServiceSuccess <;>
    [simp only [run_stop_post, if_pos hres, start_service];
     simp only [run_stop_post, if_neg hres, start_service]] <;>
  · split
    case _ cmd heq =>
      right
      split
      · rw [control_command_set_state]
        exact heq.symm
      · rw [control_command_set_state, control_command_final_term]
        exact heq.symm
    case _ heq =>
      left
      rw [control_command_final_term]

/-- Unfold equation: send_signal at StopSigterm runs kill and then post-stop
with success. -/
theorem send_signal_stop_sigterm (env : Ctx) (res : ServiceResult) (s : ServiceUnit) :
    send_signal env ServiceState.ServiceStopSigterm res s =
      run_stop_post env ServiceResult.ServiceSuccess
        (kill_service env ServiceState.ServiceStopSigterm.to_kill_operation s) := rfl

theorem control_command_send_signal_stop_sigterm (env : Ctx) (res : ServiceResult)
    (s : ServiceUnit) :
    (send_signal env ServiceState.ServiceStopSigterm res s).control_command =
        s.control_command ∨
      (send_signal env ServiceState.ServiceStopSigterm res s).control_command =
        (s.exec_commands ServiceCommand.ServiceStopPost).head? := by
  rw [send_signal_stop_sigterm]
  have h := control_command_run_stop_post env ServiceResult.ServiceSuccess
    (kill_service env ServiceState.ServiceStopSigterm.to_kill_operation s)
  rw [control_command_kill_service, exec_kill_service] at h
  exact h

theorem forbid_set_state (st : ServiceState) (s : ServiceUnit) :
    (set_state st s).forbid_restart = s.forbid_restart := rfl

theorem forbid_kill_service (env : Ctx) (op : KillOperation) (s : ServiceUnit) :
    (kill_service env op s).forbid_restart = s.forbid_restart := by
  simp only [kill_service]
  repeat' split
  all_goals rfl

theorem forbid_run_dead (res : ServiceResult) (s : ServiceUnit) :
    (run_dead res s).forbid_restart = s.forbid_restart := by
  simp only [run_dead]
  split
  all_goals rfl

theorem forbid_final_kill (env : Ctx) (s : ServiceUnit) :
    (send_signal_final_kill env s).forbid_restart = s.forbid_restart := by
  rw [send_signal_final_kill, forbid_run_dead, forbid_kill_service]

theorem forbid_final_term (env : Ctx) (res : ServiceResult) (s : ServiceUnit) :
    (send_signal_final_term env res s).forbid_restart = s.forbid_restart := by
  rw [send_signal_final_term, forbid_final_kill, forbid_kill_service]

theorem forbid_run_stop_post (env : Ctx) (res : ServiceResult) (s : ServiceUnit) :
    (run_stop_post env res s).forbid_restart = s.forbid_restart := by
  simp only [run_stop_post, start_service]
  repeat' split
  all_goals first
    | rfl
    | rw [forbid_set_state, forbid_final_term]
    | rw [forbid_final_term]

theorem forbid_send_signal (env : Ctx) (st : ServiceState) (res : ServiceResult)
    (s : ServiceUnit) : (send_signal env st res s).forbid_restart = s.forbid_restart := by
  simp only [send_signal]
  split
  · rw [forbid_run_stop_post, forbid_kill_service]
  · split
    · rw [forbid_final_kill, forbid_kill_service]
    · rw [forbid_run_dead, forbid_kill_service]

theorem forbid_run_stop (env : Ctx) (res : ServiceResult) (s : ServiceUnit) :
    (run_stop env res s).forbid_restart = s.forbid_restart := by
  simp only [run_stop, start_service]
  repeat' split
  all_goals first
    | rfl
    | rw [forbid_send_signal]

theorem forbid_stop (env : Ctx) (s : ServiceUnit) :
    (stop env s).forbid_restart = true := by
  simp only [stop]
  split
  · rfl
  · split
    · rw [forbid_send_signal]
    · rw [forbid_run_stop]

theorem result_run_dead_success (s : ServiceUnit) :
    (run_dead ServiceResult.ServiceSuccess s).result = s.result := by
  by_cases h : s.result = ServiceResult.ServiceSuccess <;>
    simp [run_dead, h, set_state]

theorem result_final_kill_any (env : Ctx) (s : ServiceUnit) :
    (send_signal_final_kill env s).result = s.result := by
  rw [send_signal_final_kill, result_run_dead_success, result_kill_service]

theorem result_final_term_any (env : Ctx) (res : ServiceResult) (s : ServiceUnit) :
    (send_signal_final_term env res s).result = s.result := by
  rw [send_signal_final_term, result_final_kill_any, result_kill_service]

theorem result_run_stop_post_success (env : Ctx) (s : ServiceUnit) :
    (run_stop_post env ServiceResult.ServiceSuccess s).result = s.result := by
  have hl : (if s.result = ServiceResult.ServiceSuccess then
      { s with result := ServiceResult.ServiceSuccess } else s) = s := by
    by_cases h : s.result = ServiceResult.ServiceSuccess
    · rw [if_pos h, ← h]
    · rw [if_neg h]
  simp only [run_stop_post, hl, start_service]
  repeat' split
  all_goals first
    | rfl
    | rw [result_set_state, result_final_term_any]
    | rw [result_final_term_any]

theorem result_send_signal_any (env : Ctx) (st : ServiceState) (res : ServiceResult)
    (s : ServiceUnit) : (send_signal env st res s).result = s.result := by
  simp only [send_signal]
  split
  · rw [result_run_stop_post_success, result_kill_service]
  · split
    · rw [result_final_kill_any, result_kill_service]
    · rw [result_run_dead_success, result_kill_service]

end ServiceUnit

/-! ## Shared concrete fixtures for witnesses and counterexamples -/

/-- A spawner that always succeeds with pid 7 and a kill syscall that always
succeeds. -/
def ok_ctx : Ctx := { spawn := fun _ => some 7, kill_ok := fun _ _ => true }

/-- A spawner that always fails and a kill syscall that always succeeds. -/
def err_ctx : Ctx := { spawn := fun _ => none, kill_ok := fun _ _ => true }

/-- A single command with no successor. -/
def cmd_one : CommandLine := CommandLine.mk ["/bin/true"] none

/-- A freshly initialised unit with empty command lists. -/
def base_unit : ServiceUnit :=
  { state := ServiceState.ServiceDead
    result := ServiceResult.ServiceSuccess
    main_command := none
    control_command := none
    main_pid := none
    control_pid := none
    forbid_restart := false
    exec_commands := fun _ => []
    spawned := []
    kills := []
    states_log := [] }

/-- A running unit whose result has latched failure-signal. -/
def failed_unit : ServiceUnit :=
  { base_unit with
    result := ServiceResult.ServiceFailureSignal
    state := ServiceState.ServiceRuning
    main_pid := some 1 }

/-! ## Claim theorems -/

open ServiceUnit in
/-- C1: for every child-exit event delivered to sigchld_event(pid, code,
status), the computed ServiceResult is success when code == 0,
failure-signal when code != 0 and status != SIGCHLD, and success when
code != 0 and status == SIGCHLD.  The last conjunct ties the classifier to
sigchld_event itself: the classified value is what gets latched into the
unit result. -/
theorem claim_c1_exit_classification (env : Ctx) (pid code : Int) (status : Signal) :
    (code = 0 → sigchld_res code status = ServiceResult.ServiceSuccess) ∧
    (code ≠ 0 → status ≠ Signal.SIGCHLD →
      sigchld_res code status = ServiceResult.ServiceFailureSignal) ∧
    (code ≠ 0 → status = Signal.SIGCHLD →
      sigchld_res code status = ServiceResult.ServiceSuccess) ∧
    (∀ s : ServiceUnit, s.main_pid = some pid →
      s.result = ServiceResult.ServiceSuccess → s.main_command = none →
      s.state = ServiceState.ServiceStop →
      ∃ s', sigchld_event env pid code status s = some s' ∧
        s'.result = sigchld_res code status) := by
  refine ⟨fun h => ?_, fun h hs => ?_, fun h hs => ?_, fun s hm hres hmc hst => ?_⟩
  · simp [sigchld_res, h]
  · simp [sigchld_res, h, hs]
  · simp [sigchld_res, h, hs]
  · refine ⟨{ s with
                main_pid := none
                result := sigchld_res code status
                main_command := none }, ?_, rfl⟩
    simp only [sigchld_event, hm, hres, hmc, hst, has_next, reduceIte,
      Bool.false_eq_true, false_and, if_false]

open ServiceUnit in
/-- C2: the unit result is monotone in failure.  For each of the operations
that update it (enter_running, run_stop, run_stop_post, run_dead,
sigchld_event), if the result already holds a non-success value before the
call, it holds the same value afterwards, so a non-success value is only
ever written over a success value. -/
theorem claim_c2_result_latch_monotone (env : Ctx) (sr res : ServiceResult)
    (pid code : Int) (status : Signal) (s : ServiceUnit)
    (h : s.result ≠ ServiceResult.ServiceSuccess) :
    (enter_running env sr s).result = s.result ∧
    (run_stop env res s).result = s.result ∧
    (run_stop_post env res s).result = s.result ∧
    (run_dead res s).result = s.result ∧
    (∀ s', sigchld_event env pid code status s = some s' → s'.result = s.result) :=
  ⟨result_enter_running env sr s h, result_run_stop env res s h,
   result_run_stop_post env res s h, result_run_dead res s h,
   result_sigchld_event env pid code status s h⟩

/-- Witness for C2 at a concrete failed unit. -/
theorem claim_c2_witness :
    (ServiceUnit.enter_running ok_ctx ServiceResult.ServiceSuccess failed_unit).result =
      ServiceResult.ServiceFailureSignal ∧
    ((ServiceUnit.sigchld_event ok_ctx 1 1 Signal.SIGKILL failed_unit).getD
      failed_unit).result = ServiceResult.ServiceFailureSignal := by
  have h := claim_c2_result_latch_monotone ok_ctx ServiceResult.ServiceSuccess
    ServiceResult.ServiceSuccess 1 1 Signal.SIGKILL failed_unit (by decide)
  exact ⟨h.1, h.2.2.2.2 _ rfl⟩

namespace ServiceUnit

/-- The kill(2) calls issued for one optional pid by kill_service: the
signal itself, followed by SIGCONT when the kill succeeded and the signal
is neither SIGCONT nor SIGKILL. -/
def kill_seq (env : Ctx) (sig : Signal) : Option Int → List (Int × Signal)
  | some p =>
    if env.kill_ok p sig then
      if sig ≠ Signal.SIGCONT ∧ sig ≠ Signal.SIGKILL then [(p, sig), (p, Signal.SIGCONT)]
      else [(p, sig)]
    else [(p, sig)]
  | none => []

theorem kills_kill_service (env : Ctx) (op : KillOperation) (s : ServiceUnit) :
    (kill_service env op s).kills =
      s.kills ++ kill_seq env op.to_signal s.main_pid ++
        kill_seq env op.to_signal s.control_pid := by
  cases hm : s.main_pid <;> cases hc : s.control_pid <;>
    simp only [kill_service, kill_seq, hm, hc] <;>
    repeat' split
  all_goals simp_all

end ServiceUnit

open ServiceUnit in
/-- C7: kill_service sends the signal of the operation to the main pid when
present and to the control pid when present (both targeted when both
present), and whenever the signal is neither SIGCONT nor SIGKILL, a SIGCONT
is issued to the same pid immediately after a successful kill. -/
theorem claim_c7_kill_discipline (env : Ctx) (op : KillOperation) (s : ServiceUnit) :
    (∀ p, s.main_pid = some p → (p, op.to_signal) ∈ (kill_service env op s).kills) ∧
    (∀ q, s.control_pid = some q → (q, op.to_signal) ∈ (kill_service env op s).kills) ∧
    (∀ p, s.main_pid = some p → env.kill_ok p op.to_signal = true →
      op.to_signal ≠ Signal.SIGCONT → op.to_signal ≠ Signal.SIGKILL →
      ∃ l1 l2, (kill_service env op s).kills =
        l1 ++ (p, op.to_signal) :: (p, Signal.SIGCONT) :: l2) ∧
    (∀ q, s.control_pid = some q → env.kill_ok q op.to_signal = true →
      op.to_signal ≠ Signal.SIGCONT → op.to_signal ≠ Signal.SIGKILL →
      ∃ l1 l2, (kill_service env op s).kills =
        l1 ++ (q, op.to_signal) :: (q, Signal.SIGCONT) :: l2) := by
  refine ⟨fun p hp => ?_, fun q hq => ?_, fun p hp hk h1 h2 => ?_, fun q hq hk h1 h2 => ?_⟩
  · rw [kills_kill_service, hp]
    simp only [kill_seq]
    split_ifs <;> simp
  · rw [kills_kill_service, hq]
    simp only [kill_seq]
    split_ifs <;> simp
  · have h3 : kill_seq env op.to_signal (some p) =
        [(p, op.to_signal), (p, Signal.SIGCONT)] := by
      simp [kill_seq, hk, h1, h2]
    rw [kills_kill_service, hp, h3]
    exact ⟨s.kills, kill_seq env op.to_signal s.control_pid, by simp⟩
  · have h3 : kill_seq env op.to_signal (some q) =
        [(q, op.to_signal), (q, Signal.SIGCONT)] := by
      simp [kill_seq, hk, h1, h2]
    rw [kills_kill_service, hq, h3]
    exact ⟨s.kills ++ kill_seq env op.to_signal s.main_pid, [], by simp⟩

/-- Witness for C7 at a concrete unit with both pids present. -/
theorem claim_c7_witness :
    (3, KillOperation.KillTerminate.to_signal) ∈
      (ServiceUnit.kill_service ok_ctx KillOperation.KillTerminate
        { base_unit with main_pid := some 3, control_pid := some 4 }).kills ∧
    ∃ l1 l2, (ServiceUnit.kill_service ok_ctx KillOperation.KillTerminate
        { base_unit with main_pid := some 3, control_pid := some 4 }).kills =
      l1 ++ (4, KillOperation.KillTerminate.to_signal) ::
        (4, Signal.SIGCONT) :: l2 := by
  have h := claim_c7_kill_discipline ok_ctx KillOperation.KillTerminate
    { base_unit with main_pid := some 3, control_pid := some 4 }
  exact ⟨h.1 3 rfl, h.2.2.2 4 rfl rfl (by decide) (by decide)⟩

/-- C10: equality and hashing of dyn Source are determined solely by the
token (equal iff equal tokens; equal sources hash equally under any
hasher), while the dispatch ordering ignores the token and depends only on
the priorities. -/
theorem claim_c10_source_identity :
    (∀ a b : Source, Source.eq a b = true ↔ a.token = b.token) ∧
    (∀ (hasher : Nat → Nat) (a b : Source), Source.eq a b = true →
      Source.hash hasher a = Source.hash hasher b) ∧
    (∀ a b a2 b2 : Source, a.priority = a2.priority → b.priority = b2.priority →
      Source.cmp a b = Source.cmp a2 b2) := by
  refine ⟨fun a b => ?_, fun f a b h => ?_, fun a b a2 b2 h1 h2 => ?_⟩
  · simp [Source.eq]
  · simp only [Source.eq, beq_iff_eq] at h
    simp [Source.hash, h]
  · simp [Source.cmp, h1, h2]

/-- Witness for C10 at concrete sources. -/
theorem claim_c10_witness :
    Source.eq ⟨1, 5⟩ ⟨1, 7⟩ = true ∧
    Source.hash (fun n => n + 3) ⟨1, 5⟩ = Source.hash (fun n => n + 3) ⟨1, 7⟩ ∧
    Source.cmp ⟨1, 5⟩ ⟨2, 9⟩ = Source.cmp ⟨3, 5⟩ ⟨4, 9⟩ := by
  have h := claim_c10_source_identity
  exact ⟨(h.1 _ _).mpr rfl, h.2.1 _ _ _ ((h.1 _ _).mpr rfl), h.2.2 _ _ _ _ rfl rfl⟩

/-- Writing back an already-true forbid_restart is the identity. -/
theorem forbid_update_id (t : ServiceUnit) (ht : t.forbid_restart = true) :
    ({ t with forbid_restart := true } : ServiceUnit) = t := by
  cases t
  simp_all

open ServiceUnit in
/-- C3: from any starting state (Condition, StartPre, Start, StartPost,
Reload, StopWatchdog) a Stop intent short-circuits to send_signal with
state StopSigterm, and no command cursor is advanced to a `next` command:
the main cursor is untouched and the control cursor is either untouched or
set to the head of the post-stop stage list. -/
theorem claim_c3_stop_from_starting (env : Ctx) (s : ServiceUnit)
    (h : s.state = ServiceState.ServiceCondition ∨ s.state = ServiceState.ServiceStartPre ∨
      s.state = ServiceState.ServiceStart ∨ s.state = ServiceState.ServiceStartPost ∨
      s.state = ServiceState.ServiceReload ∨ s.state = ServiceState.ServiceStopWatchdog) :
    stop env s = send_signal env ServiceState.ServiceStopSigterm
        ServiceResult.ServiceSuccess { s with forbid_restart := true } ∧
    (stop env s).main_command = s.main_command ∧
    ((stop env s).control_command = s.control_command ∨
      (stop env s).control_command =
        (s.exec_commands ServiceCommand.ServiceStopPost).head?) := by
  have h1 : stop env s = send_signal env ServiceState.ServiceStopSigterm
      ServiceResult.ServiceSuccess { s with forbid_restart := true } := by
    rcases h with h | h | h | h | h | h <;> simp [stop, h]
  refine ⟨h1, ?_, ?_⟩
  · rw [h1, main_command_send_signal]
  · have h2 := control_command_send_signal_stop_sigterm env ServiceResult.ServiceSuccess
      { s with forbid_restart := true }
    rw [← h1] at h2
    exact h2

/-- A unit sitting in the Reload starting state. -/
def c3_unit : ServiceUnit := { base_unit with state := ServiceState.ServiceReload }

/-- Witness for C3 at a unit in Reload. -/
theorem claim_c3_witness :
    ServiceUnit.stop ok_ctx c3_unit = ServiceUnit.send_signal ok_ctx
        ServiceState.ServiceStopSigterm ServiceResult.ServiceSuccess
        { c3_unit with forbid_restart := true } ∧
    (ServiceUnit.stop ok_ctx c3_unit).main_command = c3_unit.main_command := by
  have h := claim_c3_stop_from_starting ok_ctx c3_unit (by decide)
  exact ⟨h.1, h.2.1⟩

/-- A unit in Condition whose stop stage has one command and whose other
stages are empty. -/
def c4_unit : ServiceUnit :=
  { base_unit with
    state := ServiceState.ServiceCondition
    exec_commands := fun c =>
      match c with
      | ServiceCommand.ServiceStop => [cmd_one]
      | _ => [] }

/-- Counterexample for C4: two consecutive Stop intents are not equivalent
to one.  From Condition the first Stop runs to Dead (empty post-stop), and
a second Stop then re-enters the stop sequence: it spawns the stop command,
sets the control pid and moves the state to Stop. -/
theorem claim_c4_counterexample :
    (ServiceUnit.stop ok_ctx c4_unit).state = ServiceState.ServiceDead ∧
    (ServiceUnit.stop ok_ctx (ServiceUnit.stop ok_ctx c4_unit)).state =
      ServiceState.ServiceStop ∧
    (ServiceUnit.stop ok_ctx c4_unit).control_pid = none ∧
    (ServiceUnit.stop ok_ctx (ServiceUnit.stop ok_ctx c4_unit)).control_pid = some 7 := by
  refine ⟨rfl, rfl, rfl, rfl⟩

open ServiceUnit in
/-- C4 (amended): on a unit already in a stopping state (Stop, StopSigterm,
StopSigkill, StopPost) a Stop intent only latches forbid_restart and leaves
everything else unchanged; hence whenever a Stop leaves the unit in a
stopping state, a second Stop is the identity.  (Unrestricted idempotence
fails: see the counterexample, where a Stop that completes to Dead lets a
second Stop re-run the stop sequence.) -/
theorem claim_c4_stop_noop_when_stopping (env : Ctx) (s : ServiceUnit) :
    (s.state = ServiceState.ServiceStop ∨ s.state = ServiceState.ServiceStopSigterm ∨
        s.state = ServiceState.ServiceStopSigkill ∨ s.state = ServiceState.ServiceStopPost →
      stop env s = { s with forbid_restart := true }) ∧
    ((stop env s).state = ServiceState.ServiceStop ∨
        (stop env s).state = ServiceState.ServiceStopSigterm ∨
        (stop env s).state = ServiceState.ServiceStopSigkill ∨
        (stop env s).state = ServiceState.ServiceStopPost →
      stop env (stop env s) = stop env s) := by
  have hpart : ∀ t : ServiceUnit,
      (t.state = ServiceState.ServiceStop ∨ t.state = ServiceState.ServiceStopSigterm ∨
        t.state = ServiceState.ServiceStopSigkill ∨ t.state = ServiceState.ServiceStopPost) →
      stop env t = { t with forbid_restart := true } := by
    intro t ht
    rcases ht with h | h | h | h <;> simp [stop, h]
  refine ⟨hpart s, fun h2 => ?_⟩
  rw [hpart _ h2, forbid_update_id _ (forbid_stop env s)]

/-- A unit already in the StopPost stopping state. -/
def c4w_unit : ServiceUnit := { base_unit with state := ServiceState.ServiceStopPost }

/-- Witness for the amended C4 at a unit in StopPost. -/
theorem claim_c4_witness :
    ServiceUnit.stop ok_ctx c4w_unit = { c4w_unit with forbid_restart := true } ∧
    ServiceUnit.stop ok_ctx (ServiceUnit.stop ok_ctx c4w_unit) =
      ServiceUnit.stop ok_ctx c4w_unit := by
  have h := claim_c4_stop_noop_when_stopping ok_ctx c4w_unit
  exact ⟨h.1 (by decide), h.2 (by decide)⟩

open ServiceUnit in
/-- C5: a stage with an empty command list is skipped without spawning:
start with an empty condition list proceeds to run_prestart, run_prestart
with an empty pre-start list to run_start, run_start with an empty start
list to run_start_post, run_start_post with an empty post-start list calls
enter_running with success; with all four lists empty a single start call
equals enter_running with success, spawns nothing and (from a success
result) lands in Runing. -/
theorem claim_c5_empty_stage_skips (env : Ctx) (s : ServiceUnit) :
    (s.exec_commands ServiceCommand.ServiceCondition = [] →
      start env s = run_prestart env s) ∧
    (s.exec_commands ServiceCommand.ServiceStartPre = [] →
      run_prestart env s = run_start env s) ∧
    (s.exec_commands ServiceCommand.ServiceStart = [] →
      run_start env s = run_start_post env { s with control_command := none }) ∧
    (s.exec_commands ServiceCommand.ServiceStartPost = [] →
      run_start_post env s = enter_running env ServiceResult.ServiceSuccess s) ∧
    (s.exec_commands ServiceCommand.ServiceCondition = [] →
      s.exec_commands ServiceCommand.ServiceStartPre = [] →
      s.exec_commands ServiceCommand.ServiceStart = [] →
      s.exec_commands ServiceCommand.ServiceStartPost = [] →
      start env s = enter_running env ServiceResult.ServiceSuccess
          { s with control_command := none } ∧
      (s.result = ServiceResult.ServiceSuccess →
        (start env s).spawned = s.spawned ∧
        (start env s).state = ServiceState.ServiceRuning)) := by
  refine ⟨fun h1 => by simp [start, h1], fun h2 => by simp [run_prestart, h2],
    fun h3 => by simp [run_start, h3], fun h4 => by simp [run_start_post, h4],
    fun h1 h2 h3 h4 => ?_⟩
  have e1 : start env s = run_prestart env s := by simp [start, h1]
  have e2 : run_prestart env s = run_start env s := by simp [run_prestart, h2]
  have e3 : run_start env s = run_start_post env { s with control_command := none } := by
    simp [run_start, h3]
  have e4 : run_start_post env { s with control_command := none } =
      enter_running env ServiceResult.ServiceSuccess
        { s with control_command := none } := by
    simp [run_start_post, h4]
  have heq : start env s = enter_running env ServiceResult.ServiceSuccess
      { s with control_command := none } := by rw [e1, e2, e3, e4]
  refine ⟨heq, fun hres => ?_⟩
  rw [heq]
  constructor <;> simp [enter_running, hres, service_alive, set_state]

/-- Witness for C5 at a unit whose four start-path stages are all empty. -/
theorem claim_c5_witness :
    ServiceUnit.start ok_ctx base_unit = ServiceUnit.enter_running ok_ctx
        ServiceResult.ServiceSuccess { base_unit with control_command := none } ∧
    (ServiceUnit.start ok_ctx base_unit).spawned = base_unit.spawned ∧
    (ServiceUnit.start ok_ctx base_unit).state = ServiceState.ServiceRuning := by
  have h := claim_c5_empty_stage_skips ok_ctx base_unit
  have h5 := h.2.2.2.2 rfl rfl rfl rfl
  exact ⟨h5.1, (h5.2 rfl).1, (h5.2 rfl).2⟩

/-- Witness for C1 at concrete exit codes and signals. -/
theorem claim_c1_witness :
    ServiceUnit.sigchld_res 0 Signal.SIGKILL = ServiceResult.ServiceSuccess ∧
    ServiceUnit.sigchld_res 1 Signal.SIGKILL = ServiceResult.ServiceFailureSignal ∧
    ServiceUnit.sigchld_res 1 Signal.SIGCHLD = ServiceResult.ServiceSuccess := by
  have h0 := claim_c1_exit_classification ok_ctx 1 0 Signal.SIGKILL
  have h1 := claim_c1_exit_classification ok_ctx 1 1 Signal.SIGKILL
  have h2 := claim_c1_exit_classification ok_ctx 1 1 Signal.SIGCHLD
  exact ⟨h0.1 rfl, h1.2.1 (by decide) (by decide), h2.2.2.1 (by decide) rfl⟩

/-- A unit with only a condition command. -/
def c6_unit : ServiceUnit :=
  { base_unit with
    exec_commands := fun c =>
      match c with
      | ServiceCommand.ServiceCondition => [cmd_one]
      | _ => [] }

/-- A unit with only a start command. -/
def c6s_unit : ServiceUnit :=
  { base_unit with
    exec_commands := fun c =>
      match c with
      | ServiceCommand.ServiceStart => [cmd_one]
      | _ => [] }

/-- Counterexample for C6: a spawn failure in the condition stage entered
from start() does not transition to StopSigterm.  The result latches
failure-resources via run_dead, but the recorded transitions are Failed
followed by Condition, and StopSigterm is never entered. -/
theorem claim_c6_counterexample :
    (ServiceUnit.start err_ctx c6_unit).result = ServiceResult.ServiceFailureResources ∧
    (ServiceUnit.start err_ctx c6_unit).state = ServiceState.ServiceCondition ∧
    (ServiceUnit.start err_ctx c6_unit).states_log =
      [ServiceState.ServiceFailed, ServiceState.ServiceCondition] ∧
    ServiceState.ServiceStopSigterm ∉ (ServiceUnit.start err_ctx c6_unit).states_log := by
  refine ⟨rfl, rfl, rfl, by decide⟩

open ServiceUnit in
/-- C6 (amended): when spawning fails in the condition stage (from start)
or in the pre-start stage, the unit latches failure-resources through
run_dead and the final state is Condition resp. StartPre, not StopSigterm;
when spawning the main command fails in run_start, send_signal is invoked
with StopSigterm and failure-resources but the result is not latched (it is
unchanged) and the final state is Start. -/
theorem claim_c6_spawn_failure_behavior (env : Ctx) (s : ServiceUnit) (c : CommandLine) :
    ((s.exec_commands ServiceCommand.ServiceCondition).head? = some c →
      env.spawn c = none → s.result = ServiceResult.ServiceSuccess →
      (start env s).result = ServiceResult.ServiceFailureResources ∧
      (start env s).state = ServiceState.ServiceCondition) ∧
    ((s.exec_commands ServiceCommand.ServiceStartPre).head? = some c →
      env.spawn c = none → s.result = ServiceResult.ServiceSuccess →
      (run_prestart env s).result = ServiceResult.ServiceFailureResources ∧
      (run_prestart env s).state = ServiceState.ServiceStartPre) ∧
    ((s.exec_commands ServiceCommand.ServiceStart).head? = some c →
      env.spawn c = none →
      (run_start env s).result = s.result ∧
      (run_start env s).state = ServiceState.ServiceStart) := by
  refine ⟨fun hh hsp hres => ?_, fun hh hsp hres => ?_, fun hh hsp => ?_⟩
  · constructor <;>
      simp [start, hh, hsp, start_service, run_dead, set_state, hres]
  · constructor <;>
      simp [run_prestart, hh, hsp, start_service, run_dead, set_state, hres]
  · constructor
    · have e : run_start env s = set_state ServiceState.ServiceStart
          (send_signal env ServiceState.ServiceStopSigterm
            ServiceResult.ServiceFailureResources
            ((start_service env c
              { s with control_command := none, main_command := some c }).2)) := by
        simp [run_start, hh, hsp, start_service]
      rw [e, result_set_state, result_send_signal_any, result_start_service]
    · simp [run_start, hh, hsp, start_service, set_state]

/-- Witness for the amended C6: spawn failure in the condition stage and in
the start stage, at concrete units. -/
theorem claim_c6_witness :
    (ServiceUnit.start err_ctx c6_unit).result = ServiceResult.ServiceFailureResources ∧
    (ServiceUnit.run_start err_ctx c6s_unit).result = c6s_unit.result ∧
    (ServiceUnit.run_start err_ctx c6s_unit).state = ServiceState.ServiceStart := by
  have h1 := claim_c6_spawn_failure_behavior err_ctx c6_unit cmd_one
  have h2 := claim_c6_spawn_failure_behavior err_ctx c6s_unit cmd_one
  exact ⟨(h1.1 rfl rfl rfl).1, (h2.2.2 rfl rfl).1, (h2.2.2 rfl rfl).2⟩

/-! ## Stability of the modelled dispatch order (for C8) -/

namespace Source

theorem ordering_swap_gt (o : Ordering) : o.swap = Ordering.gt ↔ o = Ordering.lt := by
  cases o <;> simp [Ordering.swap]

theorem sublist_insert_src (x : Source) (l : List Source) :
    l.Sublist (insert_src x l) := by
  induction l with
  | nil => simp [insert_src]
  | cons y ys ih =>
    simp only [insert_src]
    split
    · exact List.Sublist.cons x (List.Sublist.refl _)
    · exact List.Sublist.cons₂ y ih

theorem mem_insert_src {c : Source} (x : Source) {l : List Source} (h : c ∈ l) :
    c ∈ insert_src x l :=
  (sublist_insert_src x l).mem h

theorem self_mem_insert_src (x : Source) (l : List Source) : x ∈ insert_src x l := by
  induction l with
  | nil => simp [insert_src]
  | cons y ys ih =>
    simp only [insert_src]
    split
    · exact List.mem_cons_self x _
    · exact List.mem_cons_of_mem y ih

theorem mem_of_insert_src {z x : Source} {l : List Source} (h : z ∈ insert_src x l) :
    z = x ∨ z ∈ l := by
  induction l with
  | nil => simpa [insert_src] using h
  | cons y ys ih =>
    simp only [insert_src] at h
    split at h
    · rcases List.mem_cons.mp h with rfl | h2
      · exact Or.inl rfl
      · exact Or.inr h2
    · rcases List.mem_cons.mp h with rfl | h2
      · exact Or.inr (List.mem_cons_self _ _)
      · rcases ih h2 with h3 | h3
        · exact Or.inl h3
        · exact Or.inr (List.mem_cons_of_mem _ h3)

theorem mem_dispatch_order {b : Source} {l : List Source} (h : b ∈ l) :
    b ∈ dispatch_order l := by
  induction l with
  | nil => cases h
  | cons y ys ih =>
    simp only [dispatch_order]
    rcases List.mem_cons.mp h with rfl | h2
    · exact self_mem_insert_src b _
    · exact mem_insert_src y (ih h2)

theorem insert_src_pair {a b : Source} {l : List Source} (hb : b ∈ l)
    (hab : a.priority ≤ b.priority) : [a, b].Sublist (insert_src a l) := by
  induction l with
  | nil => cases hb
  | cons y ys ih =>
    simp only [insert_src]
    split
    case isTrue hle =>
      rcases List.mem_cons.mp hb with rfl | h2
      · exact List.Sublist.cons₂ a (List.Sublist.cons₂ b (List.nil_sublist ys))
      · exact List.Sublist.cons₂ a (List.singleton_sublist.mpr (List.mem_cons_of_mem y h2))
    case isFalse hgt =>
      rcases List.mem_cons.mp hb with rfl | h2
      · exact absurd hab hgt
      · exact List.Sublist.cons y (ih h2)

theorem pairwise_insert_src {x : Source} {l : List Source}
    (h : l.Pairwise (fun u v => u.priority ≤ v.priority)) :
    (insert_src x l).Pairwise (fun u v => u.priority ≤ v.priority) := by
  induction l with
  | nil => simp [insert_src]
  | cons y ys ih =>
    rw [List.pairwise_cons] at h
    obtain ⟨hy, hys⟩ := h
    simp only [insert_src]
    split
    case isTrue hle =>
      rw [List.pairwise_cons]
      refine ⟨fun z hz => ?_, ?_⟩
      · rcases List.mem_cons.mp hz with rfl | h2
        · exact hle
        · exact le_trans hle (hy z h2)
      · rw [List.pairwise_cons]
        exact ⟨hy, hys⟩
    case isFalse hgt =>
      rw [List.pairwise_cons]
      refine ⟨fun z hz => ?_, ih hys⟩
      rcases mem_of_insert_src hz with rfl | h2
      · exact le_of_not_le hgt
      · exact hy z h2

theorem pairwise_dispatch_order (l : List Source) :
    (dispatch_order l).Pairwise (fun u v => u.priority ≤ v.priority) := by
  induction l with
  | nil => simp [dispatch_order]
  | cons y ys ih =>
    simp only [dispatch_order]
    exact pairwise_insert_src ih

theorem stable_dispatch_order {a b : Source} {l : List Source}
    (hpr : a.priority = b.priority) (h : [a, b].Sublist l) :
    [a, b].Sublist (dispatch_order l) := by
  induction l with
  | nil => cases h
  | cons y ys ih =>
    simp only [dispatch_order]
    cases h with
    | cons _ h2 => exact List.Sublist.trans (ih h2) (sublist_insert_src y _)
    | cons₂ _ h2 =>
      exact insert_src_pair (mem_dispatch_order (List.singleton_sublist.mp h2))
        (le_of_eq hpr)

end Source

/-- C8: the Ord comparison on dyn Source orders a before b (a is popped
first from the max-heap) iff the priority of a is numerically smaller; the
modelled dispatch order is sorted by ascending priority; and equal
priorities keep their insertion order (stability). -/
theorem claim_c8_priority_order :
    (∀ a b : Source, Source.cmp a b = Ordering.gt ↔ a.priority < b.priority) ∧
    (∀ l : List Source,
      (Source.dispatch_order l).Pairwise (fun u v => u.priority ≤ v.priority)) ∧
    (∀ (l : List Source) (a b : Source), a.priority = b.priority →
      [a, b].Sublist l → [a, b].Sublist (Source.dispatch_order l)) := by
  refine ⟨fun a b => ?_, Source.pairwise_dispatch_order,
    fun l a b h1 h2 => Source.stable_dispatch_order h1 h2⟩
  rw [Source.cmp, Source.ordering_swap_gt, compare_lt_iff_lt]

/-- Witness for C8 at concrete sources: source tokens 1 and 2 share
priority 5 and keep insertion order; token 3 has smaller priority and is
ordered first. -/
theorem claim_c8_witness :
    Source.cmp ⟨3, 0⟩ ⟨1, 5⟩ = Ordering.gt ∧
    [(⟨1, 5⟩ : Source), ⟨2, 5⟩].Sublist
      (Source.dispatch_order [⟨1, 5⟩, ⟨2, 5⟩, ⟨3, 0⟩]) := by
  have h := claim_c8_priority_order
  refine ⟨(h.1 ⟨3, 0⟩ ⟨1, 5⟩).mpr (by decide), ?_⟩
  exact h.2.2 [⟨1, 5⟩, ⟨2, 5⟩, ⟨3, 0⟩] ⟨1, 5⟩ ⟨2, 5⟩ rfl
    (List.Sublist.cons₂ _ (List.Sublist.cons₂ _ (List.Sublist.cons _ (List.Sublist.refl _))))

/-- C9: Commands::dispatch records the CmdOp frame in the reliability
journal before accepting and processing the incoming request; whenever it
returns, the returned value is 0 and the last frame has been cleared after
processing, as the ordered event list shows. -/
theorem claim_c9_dispatch_frames (env : CmdEnv) (r r2 : Reliability)
    (evs : List DispatchEv) (z : Int)
    (h : Commands.dispatch env r = (r2, evs, some z)) :
    z = 0 ∧ r2.last_frame = none ∧
    (evs = [DispatchEv.set_frame ReliLastFrame.CmdOp, DispatchEv.cleared] ∨
      evs = [DispatchEv.set_frame ReliLastFrame.CmdOp, DispatchEv.processed,
        DispatchEv.cleared]) := by
  rcases henv : env.incoming with _ | st
  · rw [Commands.dispatch, henv] at h
    simp only [Prod.mk.injEq] at h
    obtain ⟨h1, h2, h3⟩ := h
    refine ⟨by injection h3 with h4; omega, ?_, Or.inl h2.symm⟩
    rw [← h1]
    rfl
  · rw [Commands.dispatch, henv] at h
    rcases hso : st.stream_ok with _ | _ <;> rcases hpo : st.process_ok with _ | _ <;>
      simp only [hso, hpo, reduceIte, reduceCtorEq, Prod.mk.injEq, and_false,
        false_and] at h
    obtain ⟨h1, h2, h3⟩ := h
    injection h3 with h4
    refine ⟨h4.symm, ?_, Or.inr h2.symm⟩
    rw [← h1]
    rfl

/-- Witness for C9: a dispatch invocation with no pending connection
returns 0, clears the frame, and its events are set-frame then cleared. -/
theorem claim_c9_witness :
    (0 : Int) = 0 ∧ (Reliability.mk none).last_frame = none ∧
    (([DispatchEv.set_frame ReliLastFrame.CmdOp, DispatchEv.cleared] :
        List DispatchEv) = [DispatchEv.set_frame ReliLastFrame.CmdOp, DispatchEv.cleared] ∨
      ([DispatchEv.set_frame ReliLastFrame.CmdOp, DispatchEv.cleared] :
        List DispatchEv) = [DispatchEv.set_frame ReliLastFrame.CmdOp,
          DispatchEv.processed, DispatchEv.cleared]) :=
  claim_c9_dispatch_frames (CmdEnv.mk none) (Reliability.mk (some ReliLastFrame.UnitOp))
    (Reliability.mk none) [DispatchEv.set_frame ReliLastFrame.CmdOp, DispatchEv.cleared]
    0 rfl

end Sysmaster
